import Mathlib

/-!
Verification development for `lis2mdl_STdC/example/lis2mdl_hard_iron.c`.

The C file is a linear demo routine `lis2mdl_hard_iron` plus platform shims.
The routine talks to the sensor only through driver calls
(`lis2mdl_device_id_get`, `lis2mdl_reset_set`, ...) and to the host through
`tx_com`; we embed it as a small-step machine whose program counter follows
the C statements one by one, parameterised by an environment `Env` that
supplies every value the device (and the external conversion helpers)
returns.  Each driver call is recorded as an `Event`, so properties about
the order and presence of configuration register writes become properties
of the event trace produced by running the machine.
-/

namespace HardIron

/-- Modelled from the spec: the driver header `lis2mdl_reg.h` is not part of
the example source; it defines the device identifier `LIS2MDL_ID` that the
WHO_AM_I check compares against.  The claims depend only on equality or
inequality with this constant, never on its numeric value. -/
def LIS2MDL_ID : Nat := 0x40

/-- `#define BOOT_TIME 20 //ms` (line 91). -/
def BOOT_TIME : Nat := 20

/-- The local array `mag_offset[6]` of `lis2mdl_hard_iron` (lines 133-140):
`{0x00 /*X_L*/, 0xF5 /*X_H*/, 0x00 /*Y_L*/, 0xF8 /*Y_H*/, 0x00 /*Z_L*/, 0xF4 /*Z_H*/}`. -/
def mag_offset : List Nat := [0x00, 0xF5, 0x00, 0xF8, 0x00, 0xF4]

/-- Everything the outside world feeds the routine: the WHO_AM_I byte, the
reset flag returned by the k-th `lis2mdl_reset_get`, the data-ready flag of
the k-th poll iteration, the raw magnetic triple and raw temperature of the
k-th poll iteration, and the (external, header-defined) conversion helpers
`lis2mdl_from_lsb_to_mgauss` / `lis2mdl_from_lsb_to_celsius`, kept abstract
as oracles because their bodies are outside the example file. -/
structure Env where
  whoami : Nat
  rst : Nat → Nat
  drdy : Nat → Nat
  magRaw : Nat → Int × Int × Int
  tempRaw : Nat → Int
  mgauss : Int → ℚ
  celsius : Int → ℚ

/-- The two `sprintf` format lines the routine can place in `tx_buffer`:
`"Magnetic field [mG]:..."` with the three converted components, and
`"Temperature [degC]:..."` with the converted temperature. -/
inductive TxMsg where
  | magLine (x y z : ℚ)
  | tempLine (t : ℚ)
deriving DecidableEq, Repr

/-- One observable action of the routine: a driver call, a platform call or
a `tx_com` transmission.  `get` events carry the value the device returned;
`magUserOffsetSet` carries the 6 bytes written to the offset registers. -/
inductive Event where
  | platformInit
  | delay (ms : Nat)
  | deviceIdGet (ret : Nat)
  | resetSet
  | resetGet (ret : Nat)
  | blockDataUpdateSet
  | dataRateSet
  | setRstModeSet
  | offsetTempCompSet
  | operatingModeSet
  | magUserOffsetSet (buf : List Nat)
  | magDataReadyGet (ret : Nat)
  | magneticRawGet (ret : Int × Int × Int)
  | temperatureRawGet (ret : Int)
  | txCom (msg : TxMsg)
deriving DecidableEq, Repr

/-- The file-scope variables of the example that the routine writes
(lines 94-99): `data_raw_magnetic` (union holding three int16),
`data_raw_temperature` (one int16), `magnetic_mG[3]`, `temperature_degC`,
`whoamI`, `rst`, and `tx_buffer` (modelled by the last message formatted
into it).  C statics start zero-initialised. -/
structure Vars where
  data_raw_magnetic : Int × Int × Int
  data_raw_temperature : Int
  magnetic_mG : ℚ × ℚ × ℚ
  temperature_degC : ℚ
  tx_buffer : Option TxMsg
  whoamI : Nat
  rst : Nat
deriving DecidableEq, Repr

/-- Program points of `lis2mdl_hard_iron`, one per statement:
`pInit` = `platform_init()` (147), `pDelay` = `platform_delay(BOOT_TIME)`
(150), `pWho` = `lis2mdl_device_id_get` (158), `pCheck` = the
`if (whoamI != LIS2MDL_ID)` test (159), `pSpin` = the empty
`while(1)` of the not-found branch (160-162), `pResetSet` = `lis2mdl_reset_set`
(166), `pResetGet k` = the k-th `lis2mdl_reset_get` of the do-while
(167-169), `pBdu` (172), `pOdr` (175), `pSetRst` (178), `pTempComp` (181),
`pOpMode` (184), `pOffset` = `lis2mdl_mag_user_offset_set` (188),
`pPoll k` = the k-th iteration of the polling `while(1)` (191-219), and
`pDone` = the closing brace of the function, which returning would reach. -/
inductive PC where
  | pInit
  | pDelay
  | pWho
  | pCheck
  | pSpin
  | pResetSet
  | pResetGet (k : Nat)
  | pBdu
  | pOdr
  | pSetRst
  | pTempComp
  | pOpMode
  | pOffset
  | pPoll (k : Nat)
  | pDone
deriving DecidableEq, Repr

/-- Machine state: program counter plus the file-scope variables. -/
structure MState where
  pc : PC
  vars : Vars
deriving DecidableEq, Repr

/-- `magnetic_mG[i] = lis2mdl_from_lsb_to_mgauss(data_raw_magnetic.i16bit[i])`
for the three components (lines 202-204). -/
def magConv (env : Env) (m : Int × Int × Int) : ℚ × ℚ × ℚ :=
  (env.mgauss m.1, env.mgauss m.2.1, env.mgauss m.2.2)

/-- Effect of one poll-loop iteration (lines 196-218) on the variables.
When the data-ready flag read at line 196 is zero the `if (reg)` body is
skipped and nothing changes.  Otherwise the body memsets and reads
`data_raw_magnetic` (200-201), converts (202-204), formats and transmits the
magnetic line (206-208), memsets and reads `data_raw_temperature` (211-212),
converts (213), formats and transmits the temperature line (215-217); the
memset-to-zero intermediates are fully overwritten by the subsequent reads,
and `tx_buffer` ends holding the temperature line. -/
def pollStepVars (env : Env) (k : Nat) (v : Vars) : Vars :=
  if env.drdy k = 0 then v
  else
    { v with
      data_raw_magnetic := env.magRaw k
      magnetic_mG := magConv env (env.magRaw k)
      data_raw_temperature := env.tempRaw k
      temperature_degC := env.celsius (env.tempRaw k)
      tx_buffer := some (TxMsg.tempLine (env.celsius (env.tempRaw k))) }

/-- Events emitted by one poll-loop iteration (lines 196-218): always the
status read; when the flag is nonzero also the magnetic raw read, the
magnetic `tx_com`, the temperature raw read and the temperature `tx_com`,
in source order. -/
def pollIterEvents (env : Env) (k : Nat) : List Event :=
  if env.drdy k = 0 then [Event.magDataReadyGet 0]
  else
    [Event.magDataReadyGet (env.drdy k),
     Event.magneticRawGet (env.magRaw k),
     Event.txCom (TxMsg.magLine (magConv env (env.magRaw k)).1
       (magConv env (env.magRaw k)).2.1 (magConv env (env.magRaw k)).2.2),
     Event.temperatureRawGet (env.tempRaw k),
     Event.txCom (TxMsg.tempLine (env.celsius (env.tempRaw k)))]

/-- One step of `lis2mdl_hard_iron`: executes the statement at the current
program counter, returning the next state and the events the statement
emitted.  Mirrors lines 147-219 of the C file statement by statement. -/
def step (env : Env) (s : MState) : MState × List Event :=
  match s.pc with
  | PC.pInit => (⟨PC.pDelay, s.vars⟩, [Event.platformInit])
  | PC.pDelay => (⟨PC.pWho, s.vars⟩, [Event.delay BOOT_TIME])
  | PC.pWho =>
      (⟨PC.pCheck, { s.vars with whoamI := env.whoami }⟩,
       [Event.deviceIdGet env.whoami])
  | PC.pCheck =>
      if s.vars.whoamI = LIS2MDL_ID then (⟨PC.pResetSet, s.vars⟩, [])
      else (⟨PC.pSpin, s.vars⟩, [])
  | PC.pSpin => (⟨PC.pSpin, s.vars⟩, [])
  | PC.pResetSet => (⟨PC.pResetGet 0, s.vars⟩, [Event.resetSet])
  | PC.pResetGet k =>
      (⟨if env.rst k = 0 then PC.pBdu else PC.pResetGet (k + 1),
        { s.vars with rst := env.rst k }⟩,
       [Event.resetGet (env.rst k)])
  | PC.pBdu => (⟨PC.pOdr, s.vars⟩, [Event.blockDataUpdateSet])
  | PC.pOdr => (⟨PC.pSetRst, s.vars⟩, [Event.dataRateSet])
  | PC.pSetRst => (⟨PC.pTempComp, s.vars⟩, [Event.setRstModeSet])
  | PC.pTempComp => (⟨PC.pOpMode, s.vars⟩, [Event.offsetTempCompSet])
  | PC.pOpMode => (⟨PC.pOffset, s.vars⟩, [Event.operatingModeSet])
  | PC.pOffset => (⟨PC.pPoll 0, s.vars⟩, [Event.magUserOffsetSet mag_offset])
  | PC.pPoll k =>
      (⟨PC.pPoll (k + 1), pollStepVars env k s.vars⟩, pollIterEvents env k)
  | PC.pDone => (⟨PC.pDone, s.vars⟩, [])

/-- Zero-initialised statics (lines 94-99). -/
def initVars : Vars :=
  { data_raw_magnetic := (0, 0, 0)
    data_raw_temperature := 0
    magnetic_mG := (0, 0, 0)
    temperature_degC := 0
    tx_buffer := none
    whoamI := 0
    rst := 0 }

/-- State at entry of `lis2mdl_hard_iron`. -/
def initState : MState := ⟨PC.pInit, initVars⟩

/-- Run the machine for `n` steps, collecting the emitted events. -/
def run (env : Env) : Nat → MState → MState × List Event
  | 0, s => (s, [])
  | n + 1, s =>
      let s1 := step env s
      let s2 := run env n s1.1
      (s2.1, s1.2 ++ s2.2)

/-- `true` exactly on the seven sensor-configuration register writes of the
routine: reset, block-data-update, data rate, set/reset mode, temperature
compensation, operating mode, user offset. -/
def isConfigWrite : Event → Bool
  | Event.resetSet => true
  | Event.blockDataUpdateSet => true
  | Event.dataRateSet => true
  | Event.setRstModeSet => true
  | Event.offsetTempCompSet => true
  | Event.operatingModeSet => true
  | Event.magUserOffsetSet _ => true
  | _ => false

/-- `true` exactly on the configuration writes that follow the reset wait
(everything in `isConfigWrite` except the reset command itself). -/
def isPostResetConfig : Event → Bool
  | Event.blockDataUpdateSet => true
  | Event.dataRateSet => true
  | Event.setRstModeSet => true
  | Event.offsetTempCompSet => true
  | Event.operatingModeSet => true
  | Event.magUserOffsetSet _ => true
  | _ => false

/-- `true` exactly on the user-offset register write. -/
def isOffsetWrite : Event → Bool
  | Event.magUserOffsetSet _ => true
  | _ => false

/-- Whether the machine has reached the closing brace of the function,
i.e. whether `lis2mdl_hard_iron` has returned. -/
def reachedEnd (s : MState) : Bool := s.pc = PC.pDone

/-- Variables after `n` further iterations of the reset-wait do-while,
starting at its k-th read: each read stores the returned flag in `rst`. -/
def rwVars (env : Env) : Nat → Nat → Vars → Vars
  | _, 0, v => v
  | k, n + 1, v => rwVars env (k + 1) n { v with rst := env.rst k }

/-- Variables after `n` poll-loop iterations starting at iteration `k`. -/
def pollVarsAux (env : Env) : Nat → Nat → Vars → Vars
  | _, 0, v => v
  | k, n + 1, v => pollVarsAux env (k + 1) n (pollStepVars env k v)

/-- Events of `n` poll-loop iterations starting at iteration `k`. -/
def pollEvents (env : Env) : Nat → Nat → List Event
  | _, 0 => []
  | k, n + 1 => pollIterEvents env k ++ pollEvents env (k + 1) n

/-- Events of the whole configuration phase when the WHO_AM_I check passes
and the reset flag first reads zero on the r-th `lis2mdl_reset_get` (after
`r` nonzero reads): platform init, boot delay, WHO_AM_I read, reset
command, the `r` nonzero reset-flag reads, the final zero read, then the
six remaining configuration writes in source order. -/
def configTrace (env : Env) (r : Nat) : List Event :=
  [Event.platformInit, Event.delay BOOT_TIME, Event.deviceIdGet env.whoami,
   Event.resetSet]
  ++ (List.range r).map (fun j => Event.resetGet (env.rst j))
  ++ [Event.resetGet 0, Event.blockDataUpdateSet, Event.dataRateSet,
      Event.setRstModeSet, Event.offsetTempCompSet, Event.operatingModeSet,
      Event.magUserOffsetSet mag_offset]

/-- `configTrace` without its final element, the user-offset write. -/
def preOffsetTrace (env : Env) (r : Nat) : List Event :=
  [Event.platformInit, Event.delay BOOT_TIME, Event.deviceIdGet env.whoami,
   Event.resetSet]
  ++ (List.range r).map (fun j => Event.resetGet (env.rst j))
  ++ [Event.resetGet 0, Event.blockDataUpdateSet, Event.dataRateSet,
      Event.setRstModeSet, Event.offsetTempCompSet, Event.operatingModeSet]

theorem configTrace_eq_preOffset (env : Env) (r : Nat) :
    configTrace env r
      = preOffsetTrace env r ++ [Event.magUserOffsetSet mag_offset] := by
  simp [configTrace, preOffsetTrace]

theorem run_add (env : Env) (m n : Nat) (s : MState) :
    run env (m + n) s
      = ((run env n (run env m s).1).1,
         (run env m s).2 ++ (run env n (run env m s).1).2) := by
  induction m generalizing s with
  | zero => simp [run]
  | succ m ih =>
      have h : m + 1 + n = (m + n) + 1 := by omega
      rw [h]
      simp only [run]
      rw [ih]
      simp [List.append_assoc]

/-- The empty `while(1)` of the device-not-found branch loops in place and
emits nothing. -/
theorem run_spin (env : Env) (n : Nat) (v : Vars) :
    run env n ⟨PC.pSpin, v⟩ = (⟨PC.pSpin, v⟩, []) := by
  induction n with
  | zero => rfl
  | succ n ih => simp [run, step, ih]

/-- With a matching WHO_AM_I byte, the first five steps execute
`platform_init`, the boot delay, the WHO_AM_I read, the (silent) ID test
and the reset command, leaving the machine at the first reset-flag read. -/
theorem run_prefix_ok (env : Env) (henv : env.whoami = LIS2MDL_ID) :
    run env 5 initState
      = (⟨PC.pResetGet 0, { initVars with whoamI := env.whoami }⟩,
         [Event.platformInit, Event.delay BOOT_TIME,
          Event.deviceIdGet env.whoami, Event.resetSet]) := by
  simp [run, step, initState, henv]

/-- While the reset flag keeps reading nonzero, the do-while at lines
167-169 stays at `lis2mdl_reset_get`, emitting one `resetGet` per read. -/
theorem run_reset_spin (env : Env) (n : Nat) :
    ∀ (k : Nat) (v : Vars), (∀ j, j < n → env.rst (k + j) ≠ 0) →
    run env n ⟨PC.pResetGet k, v⟩
      = (⟨PC.pResetGet (k + n), rwVars env k n v⟩,
         (List.range n).map (fun j => Event.resetGet (env.rst (k + j)))) := by
  induction n with
  | zero => intro k v _; rfl
  | succ n ih =>
      intro k v h
      have h0 : env.rst k ≠ 0 := by
        have := h 0 (Nat.succ_pos n)
        simpa using this
      have hrest : ∀ j, j < n → env.rst (k + 1 + j) ≠ 0 := by
        intro j hj
        have := h (j + 1) (by omega)
        have e : k + (j + 1) = k + 1 + j := by omega
        rw [e] at this
        exact this
      simp only [run, step, if_neg h0]
      rw [ih (k + 1) { v with rst := env.rst k } hrest]
      rw [Prod.ext_iff]
      refine ⟨?_, ?_⟩
      · have e : k + 1 + n = k + (n + 1) := by omega
        simp [rwVars, e]
      · rw [List.range_succ_eq_map]
        simp only [List.map_cons, List.map_map, List.singleton_append,
          List.cons.injEq]
        refine ⟨by simp, ?_⟩
        apply List.map_congr_left
        intro j _
        simp only [Function.comp_apply]
        congr 2
        omega

/-- Once a reset-flag read returns zero, the next seven steps finish the
reset wait and perform the six remaining configuration writes in source
order, arriving at the first poll-loop iteration. -/
theorem run_config (env : Env) (k : Nat) (v : Vars) (hz : env.rst k = 0) :
    run env 7 ⟨PC.pResetGet k, v⟩
      = (⟨PC.pPoll 0, { v with rst := 0 }⟩,
         [Event.resetGet 0, Event.blockDataUpdateSet, Event.dataRateSet,
          Event.setRstModeSet, Event.offsetTempCompSet,
          Event.operatingModeSet, Event.magUserOffsetSet mag_offset]) := by
  simp [run, step, hz]

/-- Running the machine from a poll state executes poll iterations only. -/
theorem run_poll (env : Env) (n : Nat) :
    ∀ (k : Nat) (v : Vars),
    run env n ⟨PC.pPoll k, v⟩
      = (⟨PC.pPoll (k + n), pollVarsAux env k n v⟩, pollEvents env k n) := by
  induction n with
  | zero => intro k v; rfl
  | succ n ih =>
      intro k v
      simp only [run, step]
      rw [ih (k + 1) (pollStepVars env k v)]
      have e : k + 1 + n = k + (n + 1) := by omega
      simp [pollVarsAux, pollEvents, e]

/-- No poll-loop iteration emits a configuration register write. -/
theorem pollIterEvents_no_config (env : Env) (k : Nat) :
    (pollIterEvents env k).filter isConfigWrite = [] := by
  by_cases h : env.drdy k = 0 <;> simp [pollIterEvents, h, isConfigWrite]

/-- The poll loop as a whole emits no configuration register write. -/
theorem pollEvents_no_config (env : Env) (n : Nat) :
    ∀ k, (pollEvents env k n).filter isConfigWrite = [] := by
  induction n with
  | zero => intro k; rfl
  | succ n ih =>
      intro k
      simp [pollEvents, List.filter_append, pollIterEvents_no_config, ih]

/-- No poll-loop iteration writes the user-offset registers. -/
theorem pollIterEvents_no_offset (env : Env) (k : Nat) :
    (pollIterEvents env k).filter isOffsetWrite = [] := by
  by_cases h : env.drdy k = 0 <;> simp [pollIterEvents, h, isOffsetWrite]

/-- The poll loop as a whole never writes the user-offset registers. -/
theorem pollEvents_no_offset (env : Env) (n : Nat) :
    ∀ k, (pollEvents env k n).filter isOffsetWrite = [] := by
  induction n with
  | zero => intro k; rfl
  | succ n ih =>
      intro k
      simp [pollEvents, List.filter_append, pollIterEvents_no_offset, ih]

/-- With a matching WHO_AM_I byte and a reset flag that reads nonzero `r`
times and then zero, `12 + r` steps execute the whole configuration phase,
emitting exactly `configTrace`, and arrive at the first poll iteration. -/
theorem run_full_config (env : Env) (r : Nat)
    (henv : env.whoami = LIS2MDL_ID)
    (hspin : ∀ j, j < r → env.rst j ≠ 0) (hz : env.rst r = 0) :
    run env (12 + r) initState
      = (⟨PC.pPoll 0,
          { rwVars env 0 r { initVars with whoamI := env.whoami } with
            rst := 0 }⟩,
         configTrace env r) := by
  have e : 12 + r = 5 + (r + 7) := by omega
  have hs : ∀ j, j < r → env.rst (0 + j) ≠ 0 := by
    intro j hj
    simpa using hspin j hj
  have hz0 : env.rst (0 + r) = 0 := by simpa using hz
  rw [e, run_add, run_prefix_ok env henv]
  dsimp only
  rw [run_add, run_reset_spin env r 0 _ hs]
  dsimp only
  rw [run_config env (0 + r) _ hz0]
  dsimp only
  rw [Prod.ext_iff]
  refine ⟨rfl, ?_⟩
  simp [configTrace]

/-- After the full configuration phase and `n` poll iterations the machine
is at poll iteration `n` and the trace is the configuration trace followed
by the poll events. -/
theorem run_reaches_poll (env : Env) (r n : Nat)
    (henv : env.whoami = LIS2MDL_ID)
    (hspin : ∀ j, j < r → env.rst j ≠ 0) (hz : env.rst r = 0) :
    run env (12 + r + n) initState
      = (⟨PC.pPoll n,
          pollVarsAux env 0 n
            { rwVars env 0 r { initVars with whoamI := env.whoami } with
              rst := 0 }⟩,
         configTrace env r ++ pollEvents env 0 n) := by
  have e : 12 + r + n = (12 + r) + n := by omega
  rw [e, run_add, run_full_config env r henv hspin hz]
  dsimp only
  rw [run_poll]
  simp

/-- Claim C1: with a matching device ID and a reset wait that terminates
after `r` nonzero flag reads, the routine performs its configuration
register writes in exactly the order reset, block-data-update, data rate,
set/reset mode, temperature compensation, operating mode, offset
registers; the poll loop is entered only after all seven, and no
configuration write occurs inside the poll loop. -/
theorem C1_config_order (env : Env) (r n : Nat)
    (henv : env.whoami = LIS2MDL_ID)
    (hspin : ∀ j, j < r → env.rst j ≠ 0) (hz : env.rst r = 0) :
    (run env (12 + r + n) initState).2
        = configTrace env r ++ pollEvents env 0 n
    ∧ (configTrace env r).filter isConfigWrite
        = [Event.resetSet, Event.blockDataUpdateSet, Event.dataRateSet,
           Event.setRstModeSet, Event.offsetTempCompSet,
           Event.operatingModeSet, Event.magUserOffsetSet mag_offset]
    ∧ (pollEvents env 0 n).filter isConfigWrite = []
    ∧ (run env (12 + r + n) initState).1.pc = PC.pPoll n := by
  have hrun := run_reaches_poll env r n henv hspin hz
  refine ⟨by rw [hrun], ?_, pollEvents_no_config env n 0, by rw [hrun]⟩
  simp [configTrace, List.filter_append, isConfigWrite, List.filter_map,
    Function.comp]

/-- Claim C2: under the same hypotheses, the 6-byte offset array
`{0x00, 0xF5, 0x00, 0xF8, 0x00, 0xF4}` is written to the offset registers
exactly once: it appears right after the other configuration steps and
before the poll events, no offset write occurs among the earlier steps,
and none occurs inside the poll loop. -/
theorem C2_offset_once (env : Env) (r n : Nat)
    (henv : env.whoami = LIS2MDL_ID)
    (hspin : ∀ j, j < r → env.rst j ≠ 0) (hz : env.rst r = 0) :
    (run env (12 + r + n) initState).2
        = preOffsetTrace env r
          ++ Event.magUserOffsetSet mag_offset :: pollEvents env 0 n
    ∧ mag_offset = [0x00, 0xF5, 0x00, 0xF8, 0x00, 0xF4]
    ∧ (preOffsetTrace env r).filter isOffsetWrite = []
    ∧ (pollEvents env 0 n).filter isOffsetWrite = [] := by
  refine ⟨?_, rfl, ?_, pollEvents_no_offset env n 0⟩
  · have hrun := run_reaches_poll env r n henv hspin hz
    rw [hrun]
    dsimp only
    rw [configTrace_eq_preOffset]
    simp
  · simp [preOffsetTrace, List.filter_append, isOffsetWrite, List.filter_map,
      Function.comp]

/-- Claim C5: with a matching device ID, as long as the first `n` reads of
the reset flag return nonzero the routine is still at the
`lis2mdl_reset_get` of the do-while: the trace so far holds no
configuration step beyond the reset command itself, and only when a read
returns zero does the next step move on to the block-data-update write. -/
theorem C5_reset_wait (env : Env) (n : Nat)
    (henv : env.whoami = LIS2MDL_ID)
    (hspin : ∀ j, j < n → env.rst j ≠ 0) :
    (run env (5 + n) initState).1.pc = PC.pResetGet n
    ∧ (run env (5 + n) initState).2
        = [Event.platformInit, Event.delay BOOT_TIME,
           Event.deviceIdGet env.whoami, Event.resetSet]
          ++ (List.range n).map (fun j => Event.resetGet (env.rst j))
    ∧ ((run env (5 + n) initState).2).filter isPostResetConfig = []
    ∧ (env.rst n = 0 → (run env (5 + n + 1) initState).1.pc = PC.pBdu) := by
  have hs : ∀ j, j < n → env.rst (0 + j) ≠ 0 := by
    intro j hj
    simpa using hspin j hj
  have hrun :
      run env (5 + n) initState
        = ((run env n (run env 5 initState).1).1,
           (run env 5 initState).2
             ++ (run env n (run env 5 initState).1).2) := run_add env 5 n _
  rw [run_prefix_ok env henv] at hrun
  dsimp only at hrun
  rw [run_reset_spin env n 0 _ hs] at hrun
  dsimp only at hrun
  have hpc : (run env (5 + n) initState).1.pc = PC.pResetGet n := by
    rw [hrun]
    simp
  have htr : (run env (5 + n) initState).2
      = [Event.platformInit, Event.delay BOOT_TIME,
         Event.deviceIdGet env.whoami, Event.resetSet]
        ++ (List.range n).map (fun j => Event.resetGet (env.rst j)) := by
    rw [hrun]
    simp
  refine ⟨hpc, htr, ?_, ?_⟩
  · rw [htr]
    simp [List.filter_append, isPostResetConfig, List.filter_map,
      Function.comp]
  · intro hz
    have hrun1 :
        run env (5 + n + 1) initState
          = ((run env 1 (run env (5 + n) initState).1).1,
             (run env (5 + n) initState).2
               ++ (run env 1 (run env (5 + n) initState).1).2) :=
      run_add env (5 + n) 1 _
    rw [hrun1]
    dsimp only
    have hst : (run env (5 + n) initState).1
        = ⟨PC.pResetGet n, (run env (5 + n) initState).1.vars⟩ := by
      rw [← hpc]
    rw [hst]
    simp [run, step, hz]

/-- No statement of the routine transfers control to the closing brace:
the ID-mismatch `while(1)` and the poll `while(1)` loop forever, and the
reset do-while exits only into the rest of the configuration sequence. -/
theorem step_pc_ne_done (env : Env) (s : MState) (h : s.pc ≠ PC.pDone) :
    (step env s).1.pc ≠ PC.pDone := by
  cases hpc : s.pc <;>
    simp_all [step] <;>
    split <;>
    simp

/-- Running any number of steps from a state short of the closing brace
never reaches it. -/
theorem run_pc_ne_done (env : Env) (n : Nat) :
    ∀ s : MState, s.pc ≠ PC.pDone → (run env n s).1.pc ≠ PC.pDone := by
  induction n with
  | zero => intro s h; exact h
  | succ n ih =>
      intro s h
      exact ih (step env s).1 (step_pc_ne_done env s h)

/-- Claim C3: `lis2mdl_hard_iron` never returns: however many steps are
executed, the machine never reaches the end of the function; moreover each
poll iteration unconditionally continues with the next poll iteration, and
the device-not-found loop unconditionally continues with itself. -/
theorem C3_never_returns (env : Env) (n : Nat) :
    reachedEnd (run env n initState).1 = false
    ∧ (∀ (k : Nat) (v : Vars),
        (step env ⟨PC.pPoll k, v⟩).1.pc = PC.pPoll (k + 1))
    ∧ (∀ v : Vars, (step env ⟨PC.pSpin, v⟩).1.pc = PC.pSpin) := by
  refine ⟨?_, fun k v => rfl, fun v => rfl⟩
  have h := run_pc_ne_done env n initState (by simp [initState])
  simp [reachedEnd, h]

/-- When the WHO_AM_I byte differs from `LIS2MDL_ID`, the machine is in
the device-not-found loop after the three startup actions, and stays there
with an unchanged trace however many further steps run. -/
theorem run_bad_id (env : Env) (n : Nat) (h : env.whoami ≠ LIS2MDL_ID) :
    run env (4 + n) initState
      = (⟨PC.pSpin, { initVars with whoamI := env.whoami }⟩,
         [Event.platformInit, Event.delay BOOT_TIME,
          Event.deviceIdGet env.whoami]) := by
  have h4 : run env 4 initState
      = (⟨PC.pSpin, { initVars with whoamI := env.whoami }⟩,
         [Event.platformInit, Event.delay BOOT_TIME,
          Event.deviceIdGet env.whoami]) := by
    simp [run, step, initState, h]
  have hrun :
      run env (4 + n) initState
        = ((run env n (run env 4 initState).1).1,
           (run env 4 initState).2
             ++ (run env n (run env 4 initState).1).2) := run_add env 4 n _
  rw [h4] at hrun
  dsimp only at hrun
  rw [run_spin] at hrun
  simpa using hrun

/-- Claim C4: when the WHO_AM_I byte differs from `LIS2MDL_ID`, the
routine reaches the empty `while(1)` after exactly the three startup
actions (platform init, boot delay, WHO_AM_I read) and stays there with an
unchanged trace no matter how many further steps run; and the only ways to
be in that loop at the next step are to be in it already or to fail the ID
test, so no other error path exists. -/
theorem C4_spin_on_bad_id (env : Env) (n : Nat)
    (h : env.whoami ≠ LIS2MDL_ID) :
    run env (4 + n) initState
      = (⟨PC.pSpin, { initVars with whoamI := env.whoami }⟩,
         [Event.platformInit, Event.delay BOOT_TIME,
          Event.deviceIdGet env.whoami])
    ∧ (∀ s : MState, (step env s).1.pc = PC.pSpin →
        s.pc = PC.pSpin ∨ (s.pc = PC.pCheck ∧ s.vars.whoamI ≠ LIS2MDL_ID)) := by
  constructor
  · exact run_bad_id env n h
  · intro s hs
    cases hpc : s.pc <;> simp_all [step]
    case pCheck =>
      by_cases hw : s.vars.whoamI = LIS2MDL_ID
      · rw [if_pos hw] at hs
        simp at hs
      · exact hw
    case pResetGet k =>
      by_cases hr : env.rst k = 0 <;> simp [hr] at hs

/-- Claim C9: in a poll-loop iteration the magnetic and temperature reads
and the two transmissions happen exactly when the data-ready flag is
nonzero.  With a zero flag the iteration emits only the status read and
leaves every variable (raw buffers, converted values, `tx_buffer`)
unchanged; with a nonzero flag it emits the status read, the magnetic raw
read, the magnetic transmission, the temperature raw read and the
temperature transmission, updating the variables with the values read. -/
theorem C9_drdy_gating (env : Env) (k : Nat) (v : Vars) :
    (env.drdy k = 0 →
      step env ⟨PC.pPoll k, v⟩
        = (⟨PC.pPoll (k + 1), v⟩, [Event.magDataReadyGet 0]))
    ∧ (env.drdy k ≠ 0 →
      step env ⟨PC.pPoll k, v⟩
        = (⟨PC.pPoll (k + 1),
            { v with
              data_raw_magnetic := env.magRaw k
              magnetic_mG := magConv env (env.magRaw k)
              data_raw_temperature := env.tempRaw k
              temperature_degC := env.celsius (env.tempRaw k)
              tx_buffer :=
                some (TxMsg.tempLine (env.celsius (env.tempRaw k))) }⟩,
           [Event.magDataReadyGet (env.drdy k),
            Event.magneticRawGet (env.magRaw k),
            Event.txCom (TxMsg.magLine (magConv env (env.magRaw k)).1
              (magConv env (env.magRaw k)).2.1
              (magConv env (env.magRaw k)).2.2),
            Event.temperatureRawGet (env.tempRaw k),
            Event.txCom (TxMsg.tempLine (env.celsius (env.tempRaw k)))])) := by
  constructor
  · intro h
    simp [step, pollStepVars, pollIterEvents, h]
  · intro h
    simp [step, pollStepVars, pollIterEvents, h]

/-- Claim C10: when the WHO_AM_I byte differs from `LIS2MDL_ID`, no
configuration register write is ever issued, at any step count. -/
theorem C10_no_config_on_bad_id (env : Env) (n : Nat)
    (h : env.whoami ≠ LIS2MDL_ID) :
    ((run env n initState).2).filter isConfigWrite = [] := by
  match n with
  | 0 => rfl
  | 1 => simp [run, step, initState, isConfigWrite]
  | 2 => simp [run, step, initState, isConfigWrite]
  | 3 => simp [run, step, initState, isConfigWrite]
  | (m + 4) =>
      have e : m + 4 = 4 + m := by omega
      rw [e, run_bad_id env m h]
      simp [isConfigWrite]

/-- The bus handle the shims dispatch on.  With the `NUCLEO_F411RE` board
selected (line 51) only the `&hi2c1` comparison is compiled; `other`
stands for any handle different from `&hi2c1`. -/
inductive Handle where
  | hi2c1
  | other
deriving DecidableEq, Repr

/-- A HAL bus transaction issued by a platform shim. -/
inductive HalOp where
  | i2cMemWrite (reg : Nat) (buf : List Nat) (len : Nat)
  | i2cMemRead (reg : Nat) (len : Nat)
deriving DecidableEq, Repr

/-- `platform_write` (lines 232-254, `NUCLEO_F411RE` build): when the
handle is `&hi2c1` it ORs `0x80` into the register address (multi-byte
write command) and issues `HAL_I2C_Mem_Write`; the HAL status `halStatus`
of that transaction is never inspected, and the function returns `0`
unconditionally on every path. -/
def platform_write (halStatus : Int) (handle : Handle) (reg : Nat)
    (bufp : List Nat) (len : Nat) : List HalOp × Int :=
  match handle, halStatus with
  | Handle.hi2c1, _ => ([HalOp.i2cMemWrite (reg ||| 0x80) bufp len], 0)
  | Handle.other, _ => ([], 0)

/-- `platform_read` (lines 266-288, `NUCLEO_F411RE` build): when the
handle is `&hi2c1` it ORs `0x80` into the register address and issues
`HAL_I2C_Mem_Read`; the HAL status `halStatus` is never inspected, and the
function returns `0` unconditionally on every path. -/
def platform_read (halStatus : Int) (handle : Handle) (reg : Nat)
    (len : Nat) : List HalOp × Int :=
  match handle, halStatus with
  | Handle.hi2c1, _ => ([HalOp.i2cMemRead (reg ||| 0x80) len], 0)
  | Handle.other, _ => ([], 0)

/-- Claim C8: `platform_write` and `platform_read` return `0` for every
input (any handle, register, buffer, length) and whatever status the
underlying HAL transaction produced, so a bus failure is never reported to
the caller. -/
theorem C8_shims_return_zero (halStatus : Int) (handle : Handle)
    (reg : Nat) (bufp : List Nat) (len : Nat) :
    (platform_write halStatus handle reg bufp len).2 = 0
    ∧ (platform_read halStatus handle reg len).2 = 0 := by
  cases handle <;> exact ⟨rfl, rfl⟩

/-- The non-static demo routines the file defines: only
`lis2mdl_hard_iron` (line 119). -/
def demoRoutines : List String := ["lis2mdl_hard_iron"]

/-- The platform-dependent helper functions the file declares and defines
(lines 110-116 and 232-330): `platform_write`, `platform_read`, `tx_com`,
`platform_delay`, `platform_init`. -/
def platformFunctions : List String :=
  ["platform_write", "platform_read", "tx_com", "platform_delay",
   "platform_init"]

/-- The functions the file's own porting comment (lines 38-41) says must
be modified to run the example on different hardware: "a modification of
the functions: platform_write, platform_read, tx_com and platform_init is
required". -/
def replacementFunctions : List String :=
  ["platform_write", "platform_read", "tx_com", "platform_init"]

/-- The shim list as the claim words it: bus write, bus read, UART
transmit, delay — i.e. `platform_write`, `platform_read`, `tx_com`,
`platform_delay` — stated from the spec for comparison against the lists
taken from the source. -/
def claimedShims : List String :=
  ["platform_write", "platform_read", "tx_com", "platform_delay"]

/-- Claim C6 counterexample: the file does not consist of the demo routine
plus exactly four platform shims — it declares five platform functions —
and the set of functions its porting comment marks for replacement is not
the claimed one: `platform_delay` is not among them (while `platform_init`
is). -/
theorem C6_counterexample :
    platformFunctions.length ≠ 4
    ∧ platformFunctions ≠ claimedShims
    ∧ "platform_delay" ∉ replacementFunctions := by
  refine ⟨by decide, by decide, by decide⟩

/-- Claim C6 (amended): the program is a single linear demo routine plus
five platform-shim functions — bus write, bus read, UART transmit, delay,
and platform init — of which the file's porting comment designates
`platform_write`, `platform_read`, `tx_com` and `platform_init` (not the
delay) as the ones a developer must replace for their own hardware. -/
theorem C6_five_shims :
    demoRoutines.length = 1
    ∧ platformFunctions.length = 5
    ∧ replacementFunctions.length = 4
    ∧ replacementFunctions
        = ["platform_write", "platform_read", "tx_com", "platform_init"]
    ∧ "platform_delay" ∈ platformFunctions
    ∧ "platform_delay" ∉ replacementFunctions
    ∧ replacementFunctions ⊆ platformFunctions := by
  refine ⟨rfl, rfl, rfl, rfl, by decide, by decide, by decide⟩

/-- A concrete environment for instantiating the theorems: the WHO_AM_I
byte matches, the reset flag reads nonzero twice and then zero, and data
is ready on every second poll iteration. -/
def envOk : Env :=
  { whoami := LIS2MDL_ID
    rst := fun j => if j < 2 then 1 else 0
    drdy := fun k => k % 2
    magRaw := fun _ => (120, -64, 3)
    tempRaw := fun _ => 16
    mgauss := fun i => (i : ℚ) * 3 / 2
    celsius := fun i => (i : ℚ) / 8 + 25 }

/-- A concrete environment whose WHO_AM_I byte does not match. -/
def envBad : Env :=
  { envOk with whoami := 0 }

theorem C1_config_order_witness :
    (run envOk (12 + 2 + 3) initState).2
        = configTrace envOk 2 ++ pollEvents envOk 0 3
    ∧ (run envOk (12 + 2 + 3) initState).1.pc = PC.pPoll 3 :=
  ⟨(C1_config_order envOk 2 3 (by decide) (by decide) (by decide)).1,
   (C1_config_order envOk 2 3 (by decide) (by decide) (by decide)).2.2.2⟩

theorem C2_offset_once_witness :
    (run envOk (12 + 2 + 3) initState).2
        = preOffsetTrace envOk 2
          ++ Event.magUserOffsetSet mag_offset :: pollEvents envOk 0 3
    ∧ mag_offset = [0x00, 0xF5, 0x00, 0xF8, 0x00, 0xF4] :=
  ⟨(C2_offset_once envOk 2 3 (by decide) (by decide) (by decide)).1,
   (C2_offset_once envOk 2 3 (by decide) (by decide) (by decide)).2.1⟩

theorem C4_spin_on_bad_id_witness :
    run envBad (4 + 2) initState
      = (⟨PC.pSpin, { initVars with whoamI := envBad.whoami }⟩,
         [Event.platformInit, Event.delay BOOT_TIME,
          Event.deviceIdGet envBad.whoami]) :=
  (C4_spin_on_bad_id envBad 2 (by decide)).1

theorem C5_reset_wait_witness :
    (run envOk (5 + 2) initState).1.pc = PC.pResetGet 2
    ∧ (run envOk (5 + 2 + 1) initState).1.pc = PC.pBdu :=
  ⟨(C5_reset_wait envOk 2 (by decide) (by decide)).1,
   (C5_reset_wait envOk 2 (by decide) (by decide)).2.2.2 (by decide)⟩

theorem C9_drdy_gating_witness :
    step envOk ⟨PC.pPoll 0, initVars⟩
      = (⟨PC.pPoll 1, initVars⟩, [Event.magDataReadyGet 0])
    ∧ step envOk ⟨PC.pPoll 1, initVars⟩
      = (⟨PC.pPoll 2,
          { initVars with
            data_raw_magnetic := envOk.magRaw 1
            magnetic_mG := magConv envOk (envOk.magRaw 1)
            data_raw_temperature := envOk.tempRaw 1
            temperature_degC := envOk.celsius (envOk.tempRaw 1)
            tx_buffer :=
              some (TxMsg.tempLine (envOk.celsius (envOk.tempRaw 1))) }⟩,
         [Event.magDataReadyGet (envOk.drdy 1),
          Event.magneticRawGet (envOk.magRaw 1),
          Event.txCom (TxMsg.magLine (magConv envOk (envOk.magRaw 1)).1
            (magConv envOk (envOk.magRaw 1)).2.1
            (magConv envOk (envOk.magRaw 1)).2.2),
          Event.temperatureRawGet (envOk.tempRaw 1),
          Event.txCom (TxMsg.tempLine (envOk.celsius (envOk.tempRaw 1)))]) :=
  ⟨(C9_drdy_gating envOk 0 initVars).1 (by decide),
   (C9_drdy_gating envOk 1 initVars).2 (by decide)⟩

theorem C10_no_config_on_bad_id_witness :
    ((run envBad 10 initState).2).filter isConfigWrite = [] :=
  C10_no_config_on_bad_id envBad 10 (by decide)

end HardIron
